import Mathlib

/-!
# Verification of the Orbit Fall authoritative-server core

Shallow embedding of the authoritative multiplayer game server and its
client-side prediction engine:

* server entities: `server/authoritative_server/js/entities/Ship.js`,
  `DefaultShip.js`, `managers/EntityManager.js`;
* server game loop and socket handlers: `server/authoritative_server/js/game.js`;
* persistence helpers: `server/persistence/playerProfiles.js`;
* client prediction/reconciliation: `server/public/js/entities/ClientShip.js`
  with constants from `js/config/GameConfig.js`.

Server-side quantities that never pass through trigonometry are embedded as
rationals so that every definition is executable; the client movement stepper
and reconciliation, which use `Math.cos`/`Math.sin`/`Math.sqrt`/`Math.pow` and
`Math.PI`, are embedded over the reals.
-/

/-- Input state stored per ship (`Ship.js` constructor / `DefaultShip.handleInput`):
the last received `{left, right, up, down}` booleans. -/
structure InputState where
  left : Bool
  right : Bool
  up : Bool
  down : Bool
deriving DecidableEq

/-- Movement stats of a server ship (`Ship.js` `this.stats`, the fields
`chooseClass` rewrites). -/
structure ShipStats where
  maxSpeed : ℚ
  acceleration : ℚ
deriving DecidableEq

/-- Server-side `DefaultShip` state: the fields of the `Ship.js` constructor
plus the `DefaultShip.js` additions (`playerName`, `lastInputSeq`) and the
`classKey` field written by the `chooseClass` handler in `game.js`. -/
structure SrvShip where
  id : String
  x : ℚ
  y : ℚ
  rotation : ℚ
  velocityX : ℚ
  velocityY : ℚ
  angularVelocity : ℚ
  stats : ShipStats
  hp : ℚ
  maxHp : ℚ
  xp : ℚ
  maxXp : ℚ
  team : String
  input : InputState
  playerName : Option String
  lastInputSeq : ℚ
  classKey : String
deriving DecidableEq

/-- One entry of the server-side `SHIP_CLASSES` table (`game.js`). -/
structure ClassConfig where
  maxHp : ℚ
  speed : ℚ
  accel : ℚ
deriving DecidableEq

/-- `SHIP_CLASSES` from `game.js`:
`hunter: {maxHp 90, speed 260, accel 220}`, `tanker: {maxHp 160, speed 180, accel 160}`. -/
def SHIP_CLASSES (key : String) : Option ClassConfig :=
  if key = "hunter" then some ⟨90, 260, 220⟩
  else if key = "tanker" then some ⟨160, 180, 160⟩
  else none

/-- `DEFAULT_CLASS` from `game.js`. -/
def DEFAULT_CLASS : String := "hunter"

/-- `XP_PER_STAR` from `game.js`. -/
def XP_PER_STAR : ℚ := 10

/-- `Ship.gainXP`: `this.xp = Math.min(this.maxXp, this.xp + amount)`. -/
def gainXP (s : SrvShip) (amount : ℚ) : SrvShip :=
  { s with xp := min s.maxXp (s.xp + amount) }

/-- `Ship.takeDamage`: `this.hp = Math.max(0, this.hp - amount)`. -/
def takeDamage (s : SrvShip) (amount : ℚ) : SrvShip :=
  { s with hp := max 0 (s.hp - amount) }

/-- `Ship.heal`: `this.hp = Math.min(this.maxHp, this.hp + amount)`. -/
def heal (s : SrvShip) (amount : ℚ) : SrvShip :=
  { s with hp := min s.maxHp (s.hp + amount) }

/-- Key resolution in the `chooseClass` handler (`game.js`):
`const safeKey = SHIP_CLASSES[requestedKey] ? requestedKey : DEFAULT_CLASS`.
A payload without a usable `classKey` string is modeled as `none`. -/
def safeClassKey (requested : Option String) : String :=
  match requested with
  | some k => if (SHIP_CLASSES k).isSome then k else DEFAULT_CLASS
  | none => DEFAULT_CLASS

/-- Lookup of a class configuration; `safeClassKey` always yields a key that is
present in `SHIP_CLASSES`, so the default is never reached from the handler. -/
def classConfigOf (key : String) : ClassConfig :=
  (SHIP_CLASSES key).getD ⟨90, 260, 220⟩

/-- The `chooseClass` socket handler body (`game.js` lines 218-237):
rewrites `classKey`, the movement stats, `maxHp`, and sets
`ship.hp = Math.min(ship.hp, ship.maxHp) || ship.maxHp` (with `ship.maxHp`
already updated to the new class's value). -/
def chooseClassHandler (s : SrvShip) (requested : Option String) : SrvShip :=
  let key := safeClassKey requested
  let cfg := classConfigOf key
  { s with
    classKey := key
    stats := { maxSpeed := cfg.speed, acceleration := cfg.accel }
    maxHp := cfg.maxHp
    hp := if min s.hp cfg.maxHp = 0 then cfg.maxHp else min s.hp cfg.maxHp }

/-- The profile application step of the `setPlayerName` handler
(`game.js` lines 200-206): `safeMaxXp = Math.max(1, Math.floor(profile.maxXp))`,
`safeXp = Math.max(0, Math.min(safeMaxXp, Math.floor(profile.xp)))`, then both
are written onto the ship.  Profile numbers are finite in the model, so the
`Number.isFinite` fallbacks are not taken. -/
def applyProfile (s : SrvShip) (pxp pmaxXp : ℚ) : SrvShip :=
  let safeMaxXp : ℚ := max 1 (⌊pmaxXp⌋ : ℚ)
  let safeXp : ℚ := max 0 (min safeMaxXp (⌊pxp⌋ : ℚ))
  { s with maxXp := safeMaxXp, xp := safeXp }

/-- The operations that mutate a ship's progression state during one session,
as enumerated by the spec: star-pickup XP gains (`handleStarCollection` calls
`ship.gainXP(XP_PER_STAR)`), profile loads (`setPlayerName` handler), and class
changes (`chooseClass` handler). -/
inductive SessionOp where
  | starPickup : SessionOp
  | profileLoad (pxp pmaxXp : ℚ) : SessionOp
  | chooseClass (requested : Option String) : SessionOp
deriving DecidableEq

/-- Apply one session operation to a ship. -/
def applySessionOp (s : SrvShip) : SessionOp → SrvShip
  | .starPickup => gainXP s XP_PER_STAR
  | .profileLoad pxp pmaxXp => applyProfile s pxp pmaxXp
  | .chooseClass requested => chooseClassHandler s requested

/-- Run a session: fold the operations over the ship state. -/
def runSession (s : SrvShip) (ops : List SessionOp) : SrvShip :=
  ops.foldl applySessionOp s

/-- Ship created on connection (`game.js` lines 114-126 feeding the `Ship.js`
constructor): default-class stats, `hp = maxHp = 90`, `xp = 0`, `maxXp = 100`,
no name yet. -/
def initialShip (id : String) (x y : ℚ) (team : String) : SrvShip :=
  { id := id
    x := x
    y := y
    rotation := 0
    velocityX := 0
    velocityY := 0
    angularVelocity := 0
    stats := { maxSpeed := 260, acceleration := 220 }
    hp := 90
    maxHp := 90
    xp := 0
    maxXp := 100
    team := team
    input := ⟨false, false, false, false⟩
    playerName := none
    lastInputSeq := 0
    classKey := DEFAULT_CLASS }

/-- The per-ship progression invariant stated by the spec:
`xp ∈ [0, maxXp]` and `hp ∈ [0, maxHp]`. -/
abbrev ShipInv (s : SrvShip) : Prop :=
  0 ≤ s.xp ∧ s.xp ≤ s.maxXp ∧ 0 ≤ s.hp ∧ s.hp ≤ s.maxHp

/-- Every class configuration reachable through `safeClassKey` has positive
`maxHp` (90 for hunter, 160 for tanker). -/
lemma classConfigOf_safe_maxHp_pos (requested : Option String) :
    0 < (classConfigOf (safeClassKey requested)).maxHp := by
  rcases requested with _ | k
  · decide
  · by_cases h1 : k = "hunter"
    · subst h1; decide
    · by_cases h2 : k = "tanker"
      · subst h2; decide
      · have hk : SHIP_CLASSES k = none := by
          simp [SHIP_CLASSES, h1, h2]
        simp only [safeClassKey, hk, Option.isSome_none, Bool.false_eq_true, if_false]
        decide

/-- `applySessionOp` preserves the progression invariant. -/
lemma applySessionOp_preserves_inv (s : SrvShip) (op : SessionOp)
    (h : ShipInv s) : ShipInv (applySessionOp s op) := by
  obtain ⟨hxp0, hxpM, hhp0, hhpM⟩ := h
  cases op with
  | starPickup =>
    refine ⟨?_, ?_, hhp0, hhpM⟩
    · simp only [applySessionOp, gainXP, XP_PER_STAR]
      have : (0:ℚ) ≤ s.xp + 10 := by linarith
      exact le_min (le_trans hxp0 hxpM) this
    · simp only [applySessionOp, gainXP]
      exact min_le_left _ _
  | profileLoad pxp pmaxXp =>
    refine ⟨?_, ?_, hhp0, hhpM⟩
    · simp only [applySessionOp, applyProfile]
      exact le_max_left _ _
    · simp only [applySessionOp, applyProfile]
      rcases le_total (min (max 1 (⌊pmaxXp⌋ : ℚ)) (⌊pxp⌋ : ℚ)) 0 with hc | hc
      · rw [max_eq_left hc]
        have : (0:ℚ) ≤ 1 := by norm_num
        exact le_trans this (le_max_left _ _)
      · rw [max_eq_right hc]
        exact min_le_left _ _
  | chooseClass requested =>
    have hpos := classConfigOf_safe_maxHp_pos requested
    refine ⟨hxp0, hxpM, ?_, ?_⟩
    · simp only [applySessionOp, chooseClassHandler]
      split
      · exact le_of_lt hpos
      · exact le_min hhp0 (le_of_lt hpos)
    · simp only [applySessionOp, chooseClassHandler]
      split
      · exact le_refl _
      · exact min_le_right _ _

/-- The progression invariant holds along any whole session. -/
lemma runSession_preserves_inv (s : SrvShip) (ops : List SessionOp)
    (h : ShipInv s) : ShipInv (runSession s ops) := by
  induction ops generalizing s with
  | nil => exact h
  | cons op rest ih =>
    exact ih _ (applySessionOp_preserves_inv s op h)

/-- The freshly created ship satisfies the progression invariant. -/
lemma initialShip_inv (id : String) (x y : ℚ) (team : String) :
    ShipInv (initialShip id x y team) := by
  refine ⟨le_refl 0, ?_, ?_, le_refl _⟩ <;> norm_num [initialShip]

/-- C5 counterexample: xp is not monotonically non-decreasing across a session.
A ship that collects a star (xp 10) and then has its persisted profile
(xp 0, maxXp 100) applied by the `setPlayerName` handler drops back to xp 0. -/
theorem c5_xp_monotone_counterexample :
    (runSession (initialShip "p1" 100 100 "red") [SessionOp.starPickup]).xp = 10 ∧
    (runSession (initialShip "p1" 100 100 "red")
      [SessionOp.starPickup, SessionOp.profileLoad 0 100]).xp = 0 := by
  constructor
  · simp only [runSession, List.foldl, applySessionOp, gainXP, XP_PER_STAR, initialShip]
    norm_num
  · simp only [runSession, List.foldl, applySessionOp, gainXP, applyProfile,
      XP_PER_STAR, initialShip]
    norm_num

/-- C5 (amended): along every session (star pickups, profile loads, class
changes) the ship keeps `0 ≤ xp ≤ maxXp` and `0 ≤ hp ≤ maxHp`; star pickups
and class changes never decrease xp, while a profile load may replace xp by
the clamped persisted value (possibly smaller). -/
theorem c5_session_invariants (id : String) (x y : ℚ) (team : String)
    (ops : List SessionOp) :
    ShipInv (runSession (initialShip id x y team) ops) ∧
    (∀ s : SrvShip, ShipInv s →
      s.xp ≤ (applySessionOp s SessionOp.starPickup).xp) ∧
    (∀ (s : SrvShip) (requested : Option String),
      s.xp ≤ (applySessionOp s (SessionOp.chooseClass requested)).xp) := by
  refine ⟨runSession_preserves_inv _ ops (initialShip_inv id x y team), ?_, ?_⟩
  · intro s hs
    obtain ⟨hxp0, hxpM, -, -⟩ := hs
    simp only [applySessionOp, gainXP, XP_PER_STAR]
    exact le_min hxpM (by linarith)
  · intro s requested
    simp [applySessionOp, chooseClassHandler]

/-- Witness for C5: the amended theorem applied to a concrete ship. -/
theorem c5_session_invariants_witness :
    ShipInv (initialShip "p1" 100 100 "red") ∧
    (initialShip "p1" 100 100 "red").xp ≤
      (applySessionOp (initialShip "p1" 100 100 "red") SessionOp.starPickup).xp :=
  ⟨initialShip_inv "p1" 100 100 "red",
   (c5_session_invariants "p1" 100 100 "red" []).2.1 _
     (initialShip_inv "p1" 100 100 "red")⟩

/-- C10: after a `chooseClass` event the ship's hp is
`min (previous hp) (new class maxHp)` when that minimum is non-zero, and the
full new `maxHp` when the minimum is zero; in particular choosing any class at
0 hp restores full health. -/
theorem c10_chooseClass_hp (s : SrvShip) (requested : Option String) :
    (min s.hp (classConfigOf (safeClassKey requested)).maxHp ≠ 0 →
      (chooseClassHandler s requested).hp
        = min s.hp (classConfigOf (safeClassKey requested)).maxHp) ∧
    (min s.hp (classConfigOf (safeClassKey requested)).maxHp = 0 →
      (chooseClassHandler s requested).hp
        = (classConfigOf (safeClassKey requested)).maxHp) ∧
    (s.hp = 0 →
      (chooseClassHandler s requested).hp
        = (classConfigOf (safeClassKey requested)).maxHp) := by
  refine ⟨?_, ?_, ?_⟩
  · intro h
    simp only [chooseClassHandler, if_neg h]
  · intro h
    simp only [chooseClassHandler, if_pos h]
  · intro h
    have hmin : min s.hp (classConfigOf (safeClassKey requested)).maxHp = 0 := by
      rw [h]
      exact min_eq_left (le_of_lt (classConfigOf_safe_maxHp_pos requested))
    simp only [chooseClassHandler, if_pos hmin]

/-- Witness for C10: a hunter ship at 0 hp that chooses tanker comes back at
the tanker's full 160 hp. -/
theorem c10_chooseClass_hp_witness :
    (takeDamage (initialShip "p1" 100 100 "red") 90).hp = 0 ∧
    (chooseClassHandler (takeDamage (initialShip "p1" 100 100 "red") 90)
        (some "tanker")).hp
      = (classConfigOf (safeClassKey (some "tanker"))).maxHp := by
  have h0 : (takeDamage (initialShip "p1" 100 100 "red") 90).hp = 0 := by
    simp only [takeDamage, initialShip]
    norm_num
  exact ⟨h0,
    (c10_chooseClass_hp (takeDamage (initialShip "p1" 100 100 "red") 90)
      (some "tanker")).2.2 h0⟩

/-- The snapshot produced by `DefaultShip.serialize`: the `Ship.serialize`
fields (`playerId`, position, rotation, velocity, angular velocity, team,
hp/maxHp, xp/maxXp) plus `playerName`, `lastInputSeq` and a copy of the input
state.  The ship's class key and stats are not part of the snapshot. -/
structure SerializedShip where
  playerId : String
  x : ℚ
  y : ℚ
  rotation : ℚ
  velocityX : ℚ
  velocityY : ℚ
  angularVelocity : ℚ
  team : String
  hp : ℚ
  maxHp : ℚ
  xp : ℚ
  maxXp : ℚ
  playerName : Option String
  lastInputSeq : ℚ
  input : InputState
deriving DecidableEq

/-- `DefaultShip.serialize` (`DefaultShip.js` lines 80-88 over
`Ship.serialize`, `Ship.js` lines 191-206). -/
def SrvShip.serialize (s : SrvShip) : SerializedShip :=
  { playerId := s.id
    x := s.x
    y := s.y
    rotation := s.rotation
    velocityX := s.velocityX
    velocityY := s.velocityY
    angularVelocity := s.angularVelocity
    team := s.team
    hp := s.hp
    maxHp := s.maxHp
    xp := s.xp
    maxXp := s.maxXp
    playerName := s.playerName
    lastInputSeq := s.lastInputSeq
    input := s.input }

/-- Modelled from the spec: deserialization of a ship snapshot.  The
repository contains no deserializer; clients rebuild ships from snapshots in
the `ClientShip` constructor, which reads `serverState.classKey` and falls
back to `GameConfig.defaultClass` (and that class's stats) when the snapshot
carries no class — which `DefaultShip.serialize` never does. -/
def deserializeShip (w : SerializedShip) : SrvShip :=
  { id := w.playerId
    x := w.x
    y := w.y
    rotation := w.rotation
    velocityX := w.velocityX
    velocityY := w.velocityY
    angularVelocity := w.angularVelocity
    stats := { maxSpeed := (classConfigOf DEFAULT_CLASS).speed
               acceleration := (classConfigOf DEFAULT_CLASS).accel }
    hp := w.hp
    maxHp := w.maxHp
    xp := w.xp
    maxXp := w.maxXp
    team := w.team
    input := w.input
    playerName := w.playerName
    lastInputSeq := w.lastInputSeq
    classKey := DEFAULT_CLASS }

/-- A ship that selected the tanker class. -/
def c6TankerShip : SrvShip :=
  chooseClassHandler (initialShip "p1" 100 100 "red") (some "tanker")

/-- C6 counterexample: the serialized snapshot does not contain the class, so
serialize-then-deserialize does not reproduce identical field values: a ship
that chose the tanker class comes back as the default (hunter) class. -/
theorem c6_roundtrip_counterexample :
    c6TankerShip.classKey = "tanker" ∧
    (deserializeShip c6TankerShip.serialize).classKey = "hunter" ∧
    deserializeShip c6TankerShip.serialize ≠ c6TankerShip := by
  refine ⟨by decide, by decide, fun h => ?_⟩
  have hk := congrArg SrvShip.classKey h
  revert hk
  decide

/-- C6 (amended): serializing a ship and deserializing the result reproduces
every serialized field — id, name, position, rotation, velocity (and angular
velocity), team, hp/maxHp, xp/maxXp, input and input sequence — and the
snapshot carries each of those fields verbatim; the class key is not part of
the snapshot and is therefore not reproduced. -/
theorem c6_serialize_roundtrip (s : SrvShip) :
    (deserializeShip s.serialize).id = s.id ∧
    (deserializeShip s.serialize).playerName = s.playerName ∧
    (deserializeShip s.serialize).x = s.x ∧
    (deserializeShip s.serialize).y = s.y ∧
    (deserializeShip s.serialize).rotation = s.rotation ∧
    (deserializeShip s.serialize).velocityX = s.velocityX ∧
    (deserializeShip s.serialize).velocityY = s.velocityY ∧
    (deserializeShip s.serialize).angularVelocity = s.angularVelocity ∧
    (deserializeShip s.serialize).team = s.team ∧
    (deserializeShip s.serialize).hp = s.hp ∧
    (deserializeShip s.serialize).maxHp = s.maxHp ∧
    (deserializeShip s.serialize).xp = s.xp ∧
    (deserializeShip s.serialize).maxXp = s.maxXp ∧
    (deserializeShip s.serialize).input = s.input ∧
    (deserializeShip s.serialize).lastInputSeq = s.lastInputSeq ∧
    s.serialize.playerId = s.id ∧
    s.serialize.playerName = s.playerName ∧
    s.serialize.x = s.x ∧
    s.serialize.y = s.y ∧
    s.serialize.rotation = s.rotation ∧
    s.serialize.velocityX = s.velocityX ∧
    s.serialize.velocityY = s.velocityY ∧
    s.serialize.team = s.team ∧
    s.serialize.hp = s.hp ∧
    s.serialize.maxHp = s.maxHp ∧
    s.serialize.xp = s.xp ∧
    s.serialize.maxXp = s.maxXp := by
  repeat constructor

/-- `USERNAME_MAX_LEN` from `playerProfiles.js`. -/
def USERNAME_MAX_LEN : ℕ := 20

/-- JavaScript `String.prototype.trim`: drop leading and trailing whitespace.
Embedded structurally over the character list so it is executable. -/
def jsTrim (s : String) : String :=
  String.mk (((s.data.dropWhile Char.isWhitespace).reverse.dropWhile
    Char.isWhitespace).reverse)

/-- `normalizeUsername` (`playerProfiles.js` lines 17-23): trim; reject an
empty result; truncate to `USERNAME_MAX_LEN` characters.  The handler always
receives a string payload, so the `typeof input !== 'string'` guard is not
modeled. -/
def normalizeUsername (input : String) : Option String :=
  let trimmed := jsTrim input
  if trimmed = "" then none
  else if trimmed.length > USERNAME_MAX_LEN then
    some (String.mk (trimmed.data.take USERNAME_MAX_LEN))
  else some trimmed

/-- Naming state of one connection: `socket.data.username` and the ship's
`playerName` (`DefaultShip.setPlayerName` writes the latter). -/
structure NameState where
  username : Option String
  shipName : Option String
deriving DecidableEq

/-- A fresh connection: `socket.data.username = null`, ship without a name. -/
def initialNameState : NameState := ⟨none, none⟩

/-- The naming part of the `setPlayerName` handler (`game.js` lines 155-177):
drop values that do not normalize; if `socket.data.username` is set and
differs from the normalized value, ignore the event; otherwise store the
normalized value on the socket and the ship (`DefaultShip.setPlayerName`, which
always assigns since a normalized name is non-empty). -/
def setPlayerNameEvent (st : NameState) (raw : String) : NameState :=
  match normalizeUsername raw with
  | none => st
  | some u =>
    match st.username with
    | some existing => if existing = u then ⟨some u, some u⟩ else st
    | none => ⟨some u, some u⟩

/-- Fold a list of `setPlayerName` events over the connection state. -/
def runNameEvents (st : NameState) (evs : List String) : NameState :=
  evs.foldl setPlayerNameEvent st

/-- C8 counterexample: the first non-empty `setPlayerName` value is not always
accepted and stored as sent.  A whitespace-only value (non-empty) is dropped
entirely, and a 25-character value is stored truncated to 20 characters
rather than as sent. -/
theorem c8_first_name_counterexample :
    (" " : String) ≠ "" ∧
    (runNameEvents initialNameState [" "]).shipName = none ∧
    ("abcdefghijklmnopqrstuvwxy" : String) ≠ "" ∧
    (runNameEvents initialNameState ["abcdefghijklmnopqrstuvwxy"]).shipName
      = some "abcdefghijklmnopqrst" := by
  refine ⟨by decide, by decide, by decide, by decide⟩

/-- C8 (amended): the first `setPlayerName` value that normalizes (trim,
truncate to 20 characters) to a non-empty name is accepted and its normalized
form is stored as the display name; after that, no `setPlayerName` event of
the session changes the stored name — differing values are ignored and equal
ones re-store the same name. -/
theorem c8_name_set_once (raw u : String) (rest : List String)
    (h : normalizeUsername raw = some u) :
    runNameEvents initialNameState (raw :: rest) = ⟨some u, some u⟩ := by
  have hstep : setPlayerNameEvent initialNameState raw = ⟨some u, some u⟩ := by
    simp [setPlayerNameEvent, initialNameState, h]
  have hfix : ∀ evs : List String,
      runNameEvents ⟨some u, some u⟩ evs = ⟨some u, some u⟩ := by
    intro evs
    induction evs with
    | nil => rfl
    | cons v vs ih =>
      have h1 : setPlayerNameEvent ⟨some u, some u⟩ v = ⟨some u, some u⟩ := by
        simp only [setPlayerNameEvent]
        cases hnv : normalizeUsername v with
        | none => rfl
        | some u2 =>
          by_cases he : u = u2
          · subst he
            simp
          · simp [he]
      show runNameEvents (setPlayerNameEvent ⟨some u, some u⟩ v) vs = _
      rw [h1, ih]
  show runNameEvents (setPlayerNameEvent initialNameState raw) rest = _
  rw [hstep, hfix]

/-- Witness for C8: a concrete session where the first value is accepted and a
later rename attempt leaves the name unchanged. -/
theorem c8_name_set_once_witness :
    normalizeUsername "bob" = some "bob" ∧
    runNameEvents initialNameState ["bob", "eve"] = ⟨some "bob", some "bob"⟩ :=
  ⟨by decide, c8_name_set_once "bob" "bob" ["eve"] (by decide)⟩

/-- `gameState.scores` (`game.js`): the two team scores. -/
structure GameScores where
  red : ℤ
  blue : ℤ
deriving DecidableEq

/-- The server state relevant to score resetting: the ids held by the
`EntityManager` ship map and the team scores. -/
structure ServerGame where
  shipIds : List String
  scores : GameScores
deriving DecidableEq

/-- `resetScoresIfNoPlayers` (`game.js` lines 39-46): when the ship collection
is empty and a score is non-zero, zero both scores (and broadcast them). -/
def resetScoresIfNoPlayers (g : ServerGame) : ServerGame :=
  if g.shipIds.length = 0 ∧ (g.scores.red ≠ 0 ∨ g.scores.blue ≠ 0) then
    { g with scores := ⟨0, 0⟩ }
  else g

/-- `EntityManager.removeShip` (keyed map delete). -/
def removeShipId (g : ServerGame) (id : String) : ServerGame :=
  { g with shipIds := g.shipIds.filter (fun i => i != id) }

/-- `removeStalePlayers` (`game.js` lines 61-76):
`EntityManager.removeStaleShips` keeps only ships whose socket is still
active, then `resetScoresIfNoPlayers` runs. -/
def removeStalePlayers (g : ServerGame) (activeIds : List String) : ServerGame :=
  resetScoresIfNoPlayers
    { g with shipIds := g.shipIds.filter (fun i => activeIds.contains i) }

/-- The disconnect handler (`game.js` lines 256-282): remove this socket's
ship, then sweep stale players (which ends in `resetScoresIfNoPlayers`). -/
def disconnectHandler (g : ServerGame) (id : String) (activeIds : List String) :
    ServerGame :=
  removeStalePlayers (removeShipId g id) activeIds

/-- `resetScoresIfNoPlayers` keeps the ship list, zeroes the scores exactly
when the list is empty, and keeps them otherwise. -/
lemma resetScoresIfNoPlayers_spec (g : ServerGame) :
    (resetScoresIfNoPlayers g).shipIds = g.shipIds ∧
    (g.shipIds = [] → (resetScoresIfNoPlayers g).scores = ⟨0, 0⟩) ∧
    (g.shipIds ≠ [] → (resetScoresIfNoPlayers g).scores = g.scores) := by
  unfold resetScoresIfNoPlayers
  split
  · rename_i h
    refine ⟨rfl, fun _ => rfl, fun hne => absurd (List.length_eq_zero.mp h.1) hne⟩
  · rename_i h
    refine ⟨rfl, fun hnil => ?_, fun _ => rfl⟩
    rw [not_and_or] at h
    rcases h with h | h
    · exact absurd (by simp [hnil]) h
    · rw [not_or, not_not, not_not] at h
      cases hg : g.scores with
      | mk r b =>
        have hr := h.1
        have hb := h.2
        rw [hg] at hr hb
        simp only [hg] at hr hb ⊢
        rw [hr, hb]

/-- C4: whenever a disconnect or a stale-connection sweep leaves the ship
collection empty, both team scores are 0 afterwards (whatever they were
before); when at least one ship remains, the scores are untouched. -/
theorem c4_score_reset_on_empty (g : ServerGame) (id : String)
    (activeIds : List String) :
    ((disconnectHandler g id activeIds).shipIds = [] →
      (disconnectHandler g id activeIds).scores = ⟨0, 0⟩) ∧
    ((disconnectHandler g id activeIds).shipIds ≠ [] →
      (disconnectHandler g id activeIds).scores = g.scores) ∧
    ((removeStalePlayers g activeIds).shipIds = [] →
      (removeStalePlayers g activeIds).scores = ⟨0, 0⟩) ∧
    ((removeStalePlayers g activeIds).shipIds ≠ [] →
      (removeStalePlayers g activeIds).scores = g.scores) := by
  have key : ∀ g2 : ServerGame, ∀ active : List String,
      ((removeStalePlayers g2 active).shipIds = [] →
        (removeStalePlayers g2 active).scores = ⟨0, 0⟩) ∧
      ((removeStalePlayers g2 active).shipIds ≠ [] →
        (removeStalePlayers g2 active).scores = g2.scores) := by
    intro g2 active
    have h := resetScoresIfNoPlayers_spec
      { g2 with shipIds := g2.shipIds.filter (fun i => active.contains i) }
    refine ⟨fun hempty => ?_, fun hne => ?_⟩
    · apply h.2.1
      rw [← h.1]
      exact hempty
    · apply h.2.2
      intro hnil
      apply hne
      show (resetScoresIfNoPlayers _).shipIds = []
      rw [h.1]
      exact hnil
  obtain ⟨k1, k2⟩ := key (removeShipId g id) activeIds
  obtain ⟨k3, k4⟩ := key g activeIds
  exact ⟨k1, k2, k3, k4⟩

/-- Witness for C4: when the only ship disconnects, non-zero scores 30/10
reset to 0/0. -/
theorem c4_score_reset_on_empty_witness :
    (disconnectHandler ⟨["a"], ⟨30, 10⟩⟩ "a" []).shipIds = [] ∧
    (disconnectHandler ⟨["a"], ⟨30, 10⟩⟩ "a" []).scores = ⟨0, 0⟩ :=
  ⟨by decide, (c4_score_reset_on_empty ⟨["a"], ⟨30, 10⟩⟩ "a" []).1 (by decide)⟩

/-- A star of `gameState.stars` (`game.js`): small integer id and position. -/
structure GameStar where
  id : ℤ
  x : ℚ
  y : ℚ
deriving DecidableEq

/-- The server state touched by star collection: scores, stars, the
`starPickupCooldown` map (`starId -> lastTriggerFrame`, modeled as an
association list) and the ship collection. -/
structure PickupState where
  scores : GameScores
  stars : List GameStar
  starPickupCooldown : List (ℤ × ℤ)
  ships : List SrvShip
deriving DecidableEq

/-- `gameState.scores[ship.team] += amount` for the two teams in play. -/
def addScore (sc : GameScores) (team : String) (amount : ℤ) : GameScores :=
  if team = "red" then { sc with red := sc.red + amount }
  else if team = "blue" then { sc with blue := sc.blue + amount }
  else sc

/-- `handleStarCollection` (`game.js` lines 301-338): look up the ship and the
star; credit the ship's team with 10 points, give the ship `XP_PER_STAR` xp,
and relocate the star to a fresh random interior position (the random
coordinates are passed in as parameters).  It neither consults nor records
`starPickupCooldown`. -/
def handleStarCollection (st : PickupState) (shipId : String) (starId : ℤ)
    (newX newY : ℚ) : PickupState :=
  match st.ships.find? (fun s => s.id == shipId) with
  | none => st
  | some ship =>
    match st.stars.find? (fun s2 => s2.id == starId) with
    | none => st
    | some _ =>
      { st with
        scores := addScore st.scores ship.team 10
        ships := st.ships.map
          (fun s2 => if s2.id == shipId then gainXP s2 XP_PER_STAR else s2)
        stars := st.stars.map
          (fun s2 => if s2.id == starId then { s2 with x := newX, y := newY }
                     else s2) }

/-- The collision callback wired per star by `EntityManager.setupStarCollisions`
(lines 166-173): `physics.add.overlap(ship.body, starBody, collisionHandler)`
with `collisionHandler = (player, star) => handleStarCollection(io, player,
star)` (`game.js` lines 129-131).  arcade-physics invokes it on every world
update in which the two bodies overlap; the callback is a bare
`handleStarCollection`. -/
def starOverlapCallback (st : PickupState) (shipId : String) (starId : ℤ)
    (newX newY : ℚ) : PickupState :=
  handleStarCollection st shipId starId newX newY

/-- `starPickupCooldown.get(starId) ?? -99999` (`game.js` line 376). -/
def cooldownLookup (cd : List (ℤ × ℤ)) (starId : ℤ) : ℤ :=
  match cd.find? (fun p => p.1 == starId) with
  | some p => p.2
  | none => -99999

/-- The cooldown gate of the fallback distance scan (`game.js` line 376):
`canTriggerAgain = (starPickupCooldown.get(starId) ?? -99999) < (frameCount - 5)`. -/
def canTriggerAgain (cd : List (ℤ × ℤ)) (starId frameCount : ℤ) : Bool :=
  cooldownLookup cd starId < frameCount - 5

/-- `starPickupCooldown.set(starId, frameCount)` (`game.js` line 379). -/
def setCooldown (cd : List (ℤ × ℤ)) (starId frameCount : ℤ) : List (ℤ × ℤ) :=
  (starId, frameCount) :: cd.filter (fun p => p.1 != starId)

/-- One (ship, star) iteration of the fallback overlap detection in
`updateGame` (`game.js` lines 369-383): a distance-gated, cooldown-gated call
of `handleStarCollection` that records the trigger frame first. -/
def fallbackPickupStep (frameCount : ℤ) (st : PickupState) (ship : SrvShip)
    (star : GameStar) (newX newY : ℚ) : PickupState :=
  let dx := ship.x - star.x
  let dy := ship.y - star.y
  let dist2 := dx * dx + dy * dy
  if dist2 ≤ 32 * 32 ∧ canTriggerAgain st.starPickupCooldown star.id frameCount then
    handleStarCollection
      { st with
        starPickupCooldown := setCooldown st.starPickupCooldown star.id frameCount }
      ship.id star.id newX newY
  else st

/-- Once the fallback path records a trigger at frame `f`, its gate blocks the
same star for every frame `g` with `g - f ≤ 5` — the behaviour the claim
expects of every credit path. -/
lemma cooldown_blocks_within_window (cd : List (ℤ × ℤ)) (starId f g : ℤ)
    (h : g - f ≤ 5) :
    canTriggerAgain (setCooldown cd starId f) starId g = false := by
  simp only [canTriggerAgain, cooldownLookup, setCooldown, List.find?]
  simp only [beq_self_eq_true, decide_eq_false_iff_not, not_lt]
  omega

/-- Ship A sitting on star 0. -/
def c1ShipA : SrvShip := initialShip "A" 100 100 "red"

/-- Ship B sitting where star 0 will be relocated to. -/
def c1ShipB : SrvShip := initialShip "B" 500 500 "red"

/-- Initial pickup state: zero scores, star 0 at (100,100) under ship A, no
recorded triggers. -/
def c1State0 : PickupState := ⟨⟨0, 0⟩, [⟨0, 100, 100⟩], [], [c1ShipA, c1ShipB]⟩

/-- State after the overlap callback fires for (ship A, star 0), the random
relocation landing on (500,500). -/
def c1State1 : PickupState := starOverlapCallback c1State0 "A" 0 500 500

/-- State after the overlap callback fires again one tick later for
(ship B, star 0) at its new position. -/
def c1State2 : PickupState := starOverlapCallback c1State1 "B" 0 1200 300

/-- C1: the physics-overlap credit path ignores the 5-tick cooldown.  The
overlap callback at tick 10 credits star 0 (red score 10) and relocates it
onto ship B; the callback fires again at tick 11 — within the window, with a
genuine overlap of distance 0 ≤ 32² — and the star is credited a second time
(red score 20).  No trigger was ever recorded in `starPickupCooldown`, the map
whose purpose (`game.js` line 30) is to prevent exactly this. -/
theorem c1_overlap_cooldown_bypass :
    c1State1.scores = ⟨10, 0⟩ ∧
    c1State1.stars = [⟨0, 500, 500⟩] ∧
    (c1ShipB.x - 500) * (c1ShipB.x - 500) + (c1ShipB.y - 500) * (c1ShipB.y - 500)
      ≤ 32 * 32 ∧
    (11 : ℤ) - 10 ≤ 5 ∧
    c1State2.scores = ⟨20, 0⟩ ∧
    c1State2.starPickupCooldown = [] := by
  refine ⟨by decide, by decide, ?_, by decide, by decide, by decide⟩
  norm_num [c1ShipB, initialShip]

noncomputable section

/-- `GameConfig.world.width` (client). -/
def clientWorldWidth : ℝ := 2000

/-- `GameConfig.world.height` (client). -/
def clientWorldHeight : ℝ := 2000

/-- `GameConfig.world.borderBuffer` (client). -/
def clientBorderBuffer : ℝ := 20

/-- Client angular speed `300 * (Math.PI / 180)` (`ClientShip` stats). -/
def ANGULAR_SPEED : ℝ := 300 * (Real.pi / 180)

/-- Client drag factor (`ClientShip` stats). -/
def DRAG_FACTOR : ℝ := 0.98

/-- Client movement stats, read from the chosen class in
`GameConfig.shipClasses` (`ClientShip` constructor lines 52-60). -/
structure ClientStats where
  maxSpeed : ℝ
  acceleration : ℝ

/-- Client kinematic state: the `ClientShip.predicted` record
`{x, y, rotation, vx, vy}`. -/
@[ext] structure PredState where
  x : ℝ
  y : ℝ
  rotation : ℝ
  vx : ℝ
  vy : ℝ

/-- Rotation update of `ClientShip.applyPrediction` (lines 185-190). -/
def predRotation (input : InputState) (dt : ℝ) (s : PredState) : ℝ :=
  if input.left then s.rotation - ANGULAR_SPEED * dt
  else if input.right then s.rotation + ANGULAR_SPEED * dt
  else s.rotation

/-- Velocity update of `applyPrediction` before the speed clamp (lines
192-223): thrust along `rotation + 1.5`, two-tier exponential braking, or
coasting drag with snap-to-rest, each `Math.pow` factor normalized by
`dt * 60`. -/
def predVelocityRaw (stats : ClientStats) (input : InputState) (dt : ℝ)
    (s : PredState) : ℝ × ℝ :=
  if input.up then
    (s.vx + Real.cos (predRotation input dt s + 1.5) * stats.acceleration * dt,
     s.vy + Real.sin (predRotation input dt s + 1.5) * stats.acceleration * dt)
  else if input.down then
    if Real.sqrt (s.vx ^ 2 + s.vy ^ 2) > 50 then
      (s.vx * (0.9 : ℝ) ^ (dt * 60), s.vy * (0.9 : ℝ) ^ (dt * 60))
    else if Real.sqrt (s.vx ^ 2 + s.vy ^ 2) > 5 then
      (s.vx * (0.7 : ℝ) ^ (dt * 60), s.vy * (0.7 : ℝ) ^ (dt * 60))
    else (0, 0)
  else
    if Real.sqrt (s.vx ^ 2 + s.vy ^ 2) > 1 then
      (s.vx * DRAG_FACTOR ^ (dt * 60), s.vy * DRAG_FACTOR ^ (dt * 60))
    else (0, 0)

/-- The speed clamp of `applyPrediction` (lines 225-230): rescale the velocity
to `maxSpeed`, preserving direction, when its magnitude exceeds `maxSpeed`. -/
def clampSpeed (maxSpeed : ℝ) (v : ℝ × ℝ) : ℝ × ℝ :=
  if Real.sqrt (v.1 ^ 2 + v.2 ^ 2) > maxSpeed then
    (v.1 / Real.sqrt (v.1 ^ 2 + v.2 ^ 2) * maxSpeed,
     v.2 / Real.sqrt (v.1 ^ 2 + v.2 ^ 2) * maxSpeed)
  else v

/-- One axis of the border clamp (lines 236-250): clamp the position into
`[lo, hi]` and zero the velocity component exactly when the clamp fires. -/
def clampAxis (lo hi p v : ℝ) : ℝ × ℝ :=
  if p < lo then (lo, 0) else if p > hi then (hi, 0) else (p, v)

/-- The pre-clamp candidate position of one `applyPrediction` step
(lines 232-234): position plus clamped velocity times `dt`. -/
def predCandidate (stats : ClientStats) (input : InputState) (dt : ℝ)
    (s : PredState) : ℝ × ℝ :=
  (s.x + (clampSpeed stats.maxSpeed (predVelocityRaw stats input dt s)).1 * dt,
   s.y + (clampSpeed stats.maxSpeed (predVelocityRaw stats input dt s)).2 * dt)

/-- `ClientShip.applyPrediction` (lines 182-254): one step of the client
movement stepper (with prediction initialized). -/
def applyPrediction (stats : ClientStats) (input : InputState) (dt : ℝ)
    (s : PredState) : PredState :=
  { x := (clampAxis clientBorderBuffer (clientWorldWidth - clientBorderBuffer)
      (predCandidate stats input dt s).1
      (clampSpeed stats.maxSpeed (predVelocityRaw stats input dt s)).1).1
    y := (clampAxis clientBorderBuffer (clientWorldHeight - clientBorderBuffer)
      (predCandidate stats input dt s).2
      (clampSpeed stats.maxSpeed (predVelocityRaw stats input dt s)).2).1
    rotation := predRotation input dt s
    vx := (clampAxis clientBorderBuffer (clientWorldWidth - clientBorderBuffer)
      (predCandidate stats input dt s).1
      (clampSpeed stats.maxSpeed (predVelocityRaw stats input dt s)).1).2
    vy := (clampAxis clientBorderBuffer (clientWorldHeight - clientBorderBuffer)
      (predCandidate stats input dt s).2
      (clampSpeed stats.maxSpeed (predVelocityRaw stats input dt s)).2).2 }

/-- After the speed clamp the squared velocity magnitude is at most
`maxSpeed ^ 2`. -/
lemma sq_sum_clampSpeed_le (m : ℝ) (hm : 0 ≤ m) (v : ℝ × ℝ) :
    (clampSpeed m v).1 ^ 2 + (clampSpeed m v).2 ^ 2 ≤ m ^ 2 := by
  unfold clampSpeed
  have hS0 : (0:ℝ) ≤ v.1 ^ 2 + v.2 ^ 2 := by positivity
  have hsq : Real.sqrt (v.1 ^ 2 + v.2 ^ 2) ^ 2 = v.1 ^ 2 + v.2 ^ 2 :=
    Real.sq_sqrt hS0
  split
  · rename_i h
    have hspos : 0 < Real.sqrt (v.1 ^ 2 + v.2 ^ 2) := lt_of_le_of_lt hm h
    have hSpos : 0 < v.1 ^ 2 + v.2 ^ 2 := by
      rw [← hsq]
      positivity
    have hexp : (v.1 / Real.sqrt (v.1 ^ 2 + v.2 ^ 2) * m) ^ 2 +
        (v.2 / Real.sqrt (v.1 ^ 2 + v.2 ^ 2) * m) ^ 2
        = (v.1 ^ 2 + v.2 ^ 2) / Real.sqrt (v.1 ^ 2 + v.2 ^ 2) ^ 2 * m ^ 2 := by
      ring
    rw [hexp, hsq, div_self (ne_of_gt hSpos), one_mul]
  · rename_i h
    push_neg at h
    calc v.1 ^ 2 + v.2 ^ 2 = Real.sqrt (v.1 ^ 2 + v.2 ^ 2) ^ 2 := hsq.symm
    _ ≤ m ^ 2 := pow_le_pow_left₀ (Real.sqrt_nonneg _) h 2

/-- The border clamp yields a coordinate inside `[lo, hi]`. -/
lemma clampAxis_mem (lo hi p v : ℝ) (hlohi : lo ≤ hi) :
    lo ≤ (clampAxis lo hi p v).1 ∧ (clampAxis lo hi p v).1 ≤ hi := by
  unfold clampAxis
  split
  · exact ⟨le_refl _, hlohi⟩
  · split
    · exact ⟨hlohi, le_refl _⟩
    · rename_i h1 h2
      push_neg at h1 h2
      exact ⟨h1, h2⟩

/-- When the border clamp fires, the velocity component is zeroed. -/
lemma clampAxis_clamped_zero (lo hi p v : ℝ) (h : p < lo ∨ hi < p) :
    (clampAxis lo hi p v).2 = 0 := by
  unfold clampAxis
  rcases h with h | h
  · rw [if_pos h]
  · by_cases h1 : p < lo
    · rw [if_pos h1]
    · rw [if_neg h1, if_pos h]

/-- The border clamp never increases the squared velocity component. -/
lemma clampAxis_vel_sq_le (lo hi p v : ℝ) :
    (clampAxis lo hi p v).2 ^ 2 ≤ v ^ 2 := by
  unfold clampAxis
  split
  · simpa using sq_nonneg v
  · split
    · simpa using sq_nonneg v
    · exact le_refl _

/-- C2: one step of the client movement stepper keeps the velocity magnitude
at most the class `maxSpeed`, each position axis inside
`[borderBuffer, worldSize - borderBuffer] = [20, 1980]`, and zeroes the
velocity component of every axis whose candidate position was clamped. -/
theorem c2_prediction_invariants (stats : ClientStats) (input : InputState)
    (dt : ℝ) (s : PredState) (hdt : 0 ≤ dt) (hms : 0 ≤ stats.maxSpeed) :
    Real.sqrt ((applyPrediction stats input dt s).vx ^ 2 +
        (applyPrediction stats input dt s).vy ^ 2) ≤ stats.maxSpeed ∧
    20 ≤ (applyPrediction stats input dt s).x ∧
    (applyPrediction stats input dt s).x ≤ 1980 ∧
    20 ≤ (applyPrediction stats input dt s).y ∧
    (applyPrediction stats input dt s).y ≤ 1980 ∧
    ((predCandidate stats input dt s).1 < 20 ∨
        1980 < (predCandidate stats input dt s).1 →
      (applyPrediction stats input dt s).vx = 0) ∧
    ((predCandidate stats input dt s).2 < 20 ∨
        1980 < (predCandidate stats input dt s).2 →
      (applyPrediction stats input dt s).vy = 0) := by
  have hlo : clientBorderBuffer = (20:ℝ) := rfl
  have hbw : clientWorldWidth - clientBorderBuffer = (1980:ℝ) := by
    norm_num [clientWorldWidth, clientBorderBuffer]
  have hbh : clientWorldHeight - clientBorderBuffer = (1980:ℝ) := by
    norm_num [clientWorldHeight, clientBorderBuffer]
  have hv := sq_sum_clampSpeed_le stats.maxSpeed hms
    (predVelocityRaw stats input dt s)
  refine ⟨?_, ?_, ?_, ?_, ?_, ?_, ?_⟩
  · have h1 := clampAxis_vel_sq_le clientBorderBuffer
      (clientWorldWidth - clientBorderBuffer) (predCandidate stats input dt s).1
      (clampSpeed stats.maxSpeed (predVelocityRaw stats input dt s)).1
    have h2 := clampAxis_vel_sq_le clientBorderBuffer
      (clientWorldHeight - clientBorderBuffer) (predCandidate stats input dt s).2
      (clampSpeed stats.maxSpeed (predVelocityRaw stats input dt s)).2
    have hsum : (applyPrediction stats input dt s).vx ^ 2 +
        (applyPrediction stats input dt s).vy ^ 2 ≤ stats.maxSpeed ^ 2 := by
      simp only [applyPrediction]
      calc (clampAxis clientBorderBuffer (clientWorldWidth - clientBorderBuffer)
            (predCandidate stats input dt s).1
            (clampSpeed stats.maxSpeed (predVelocityRaw stats input dt s)).1).2 ^ 2 +
          (clampAxis clientBorderBuffer (clientWorldHeight - clientBorderBuffer)
            (predCandidate stats input dt s).2
            (clampSpeed stats.maxSpeed (predVelocityRaw stats input dt s)).2).2 ^ 2
          ≤ (clampSpeed stats.maxSpeed (predVelocityRaw stats input dt s)).1 ^ 2 +
            (clampSpeed stats.maxSpeed (predVelocityRaw stats input dt s)).2 ^ 2 :=
        add_le_add h1 h2
      _ ≤ stats.maxSpeed ^ 2 := hv
    calc Real.sqrt ((applyPrediction stats input dt s).vx ^ 2 +
          (applyPrediction stats input dt s).vy ^ 2)
        ≤ Real.sqrt (stats.maxSpeed ^ 2) := Real.sqrt_le_sqrt hsum
    _ = stats.maxSpeed := Real.sqrt_sq hms
  · exact (clampAxis_mem clientBorderBuffer
      (clientWorldWidth - clientBorderBuffer) (predCandidate stats input dt s).1
      (clampSpeed stats.maxSpeed (predVelocityRaw stats input dt s)).1
      (by rw [hbw, hlo]; norm_num)).1
  · rw [show (1980:ℝ) = clientWorldWidth - clientBorderBuffer from hbw.symm]
    exact (clampAxis_mem clientBorderBuffer
      (clientWorldWidth - clientBorderBuffer) (predCandidate stats input dt s).1
      (clampSpeed stats.maxSpeed (predVelocityRaw stats input dt s)).1
      (by rw [hbw, hlo]; norm_num)).2
  · exact (clampAxis_mem clientBorderBuffer
      (clientWorldHeight - clientBorderBuffer) (predCandidate stats input dt s).2
      (clampSpeed stats.maxSpeed (predVelocityRaw stats input dt s)).2
      (by rw [hbh, hlo]; norm_num)).1
  · rw [show (1980:ℝ) = clientWorldHeight - clientBorderBuffer from hbh.symm]
    exact (clampAxis_mem clientBorderBuffer
      (clientWorldHeight - clientBorderBuffer) (predCandidate stats input dt s).2
      (clampSpeed stats.maxSpeed (predVelocityRaw stats input dt s)).2
      (by rw [hbh, hlo]; norm_num)).2
  · intro h
    show (clampAxis clientBorderBuffer (clientWorldWidth - clientBorderBuffer)
      (predCandidate stats input dt s).1
      (clampSpeed stats.maxSpeed (predVelocityRaw stats input dt s)).1).2 = 0
    apply clampAxis_clamped_zero
    rw [hbw, hlo]
    exact h
  · intro h
    show (clampAxis clientBorderBuffer (clientWorldHeight - clientBorderBuffer)
      (predCandidate stats input dt s).2
      (clampSpeed stats.maxSpeed (predVelocityRaw stats input dt s)).2).2 = 0
    apply clampAxis_clamped_zero
    rw [hbh, hlo]
    exact h

/-- Witness for C2: the theorem at a concrete hunter-class ship coasting at
rest for a zero-length frame. -/
theorem c2_prediction_invariants_witness :
    (0:ℝ) ≤ 0 ∧ (0:ℝ) ≤ 260 ∧
    (Real.sqrt ((applyPrediction ⟨260, 220⟩ ⟨false, false, false, false⟩ 0
          ⟨100, 100, 0, 0, 0⟩).vx ^ 2 +
        (applyPrediction ⟨260, 220⟩ ⟨false, false, false, false⟩ 0
          ⟨100, 100, 0, 0, 0⟩).vy ^ 2) ≤ 260 ∧
      20 ≤ (applyPrediction ⟨260, 220⟩ ⟨false, false, false, false⟩ 0
          ⟨100, 100, 0, 0, 0⟩).x ∧
      (applyPrediction ⟨260, 220⟩ ⟨false, false, false, false⟩ 0
          ⟨100, 100, 0, 0, 0⟩).x ≤ 1980 ∧
      20 ≤ (applyPrediction ⟨260, 220⟩ ⟨false, false, false, false⟩ 0
          ⟨100, 100, 0, 0, 0⟩).y ∧
      (applyPrediction ⟨260, 220⟩ ⟨false, false, false, false⟩ 0
          ⟨100, 100, 0, 0, 0⟩).y ≤ 1980 ∧
      ((predCandidate ⟨260, 220⟩ ⟨false, false, false, false⟩ 0
            ⟨100, 100, 0, 0, 0⟩).1 < 20 ∨
          1980 < (predCandidate ⟨260, 220⟩ ⟨false, false, false, false⟩ 0
            ⟨100, 100, 0, 0, 0⟩).1 →
        (applyPrediction ⟨260, 220⟩ ⟨false, false, false, false⟩ 0
          ⟨100, 100, 0, 0, 0⟩).vx = 0) ∧
      ((predCandidate ⟨260, 220⟩ ⟨false, false, false, false⟩ 0
            ⟨100, 100, 0, 0, 0⟩).2 < 20 ∨
          1980 < (predCandidate ⟨260, 220⟩ ⟨false, false, false, false⟩ 0
            ⟨100, 100, 0, 0, 0⟩).2 →
        (applyPrediction ⟨260, 220⟩ ⟨false, false, false, false⟩ 0
          ⟨100, 100, 0, 0, 0⟩).vy = 0)) :=
  ⟨le_refl 0, by norm_num,
   c2_prediction_invariants ⟨260, 220⟩ ⟨false, false, false, false⟩ 0
     ⟨100, 100, 0, 0, 0⟩ (le_refl 0) (by norm_num)⟩

/-- Thrust-only input (`up` held). -/
def thrustInput : InputState := ⟨false, false, true, false⟩

/-- C7 start state: a ship at rest at (1000, 1000) with rotation 0. -/
def c7Start : PredState := ⟨1000, 1000, 0, 0, 0⟩

/-- One client movement step at `dt = 1/60` with `ACCEL = 200` and thrust
held, for a class with max speed `m`. -/
def thrustStep (m : ℝ) (s : PredState) : PredState :=
  applyPrediction ⟨m, 200⟩ thrustInput (1/60) s

/-- Characterization of one thrust step away from the borders: rotation stays
0, the velocity grows by `(10/3) * (cos 1.5, sin 1.5)`, and the position moves
by velocity times `dt` with no clamping. -/
lemma thrustStep_fields (m c : ℝ) (s : PredState) (hm : 200 ≤ m)
    (hc : 0 ≤ c) (hc2 : c + 10/3 ≤ 200)
    (hrot : s.rotation = 0)
    (hvx : s.vx = c * Real.cos 1.5) (hvy : s.vy = c * Real.sin 1.5)
    (hx : |s.x - 1000| ≤ 236) (hy : |s.y - 1000| ≤ 236) :
    (thrustStep m s).rotation = 0 ∧
    (thrustStep m s).vx = (c + 10/3) * Real.cos 1.5 ∧
    (thrustStep m s).vy = (c + 10/3) * Real.sin 1.5 ∧
    (thrustStep m s).x = s.x + (c + 10/3) * Real.cos 1.5 * (1/60) ∧
    (thrustStep m s).y = s.y + (c + 10/3) * Real.sin 1.5 * (1/60) := by
  have hc3 : (0:ℝ) ≤ c + 10/3 := by linarith
  have hrot1 : predRotation thrustInput (1/60) s = 0 := by
    simp [predRotation, thrustInput, hrot]
  have hvraw : predVelocityRaw ⟨m, 200⟩ thrustInput (1/60) s
      = ((c + 10/3) * Real.cos 1.5, (c + 10/3) * Real.sin 1.5) := by
    simp only [predVelocityRaw]
    rw [if_pos (show thrustInput.up = true from rfl), hrot1, zero_add, hvx, hvy]
    rw [Prod.mk.injEq]
    constructor <;> ring
  have hS : ((c + 10/3) * Real.cos 1.5) ^ 2 + ((c + 10/3) * Real.sin 1.5) ^ 2
      = (c + 10/3) ^ 2 := by
    have hcs := Real.sin_sq_add_cos_sq 1.5
    nlinarith [hcs]
  have hsqrt : Real.sqrt (((c + 10/3) * Real.cos 1.5) ^ 2 +
      ((c + 10/3) * Real.sin 1.5) ^ 2) = c + 10/3 := by
    rw [hS]
    exact Real.sqrt_sq hc3
  have hclamp : clampSpeed m (predVelocityRaw ⟨m, 200⟩ thrustInput (1/60) s)
      = ((c + 10/3) * Real.cos 1.5, (c + 10/3) * Real.sin 1.5) := by
    rw [hvraw]
    unfold clampSpeed
    rw [if_neg]
    show ¬ (Real.sqrt (((c + 10/3) * Real.cos 1.5) ^ 2 +
      ((c + 10/3) * Real.sin 1.5) ^ 2) > m)
    rw [hsqrt]
    push_neg
    linarith
  have hxb : |(c + 10/3) * Real.cos 1.5 * (1/60)| ≤ 4 := by
    rw [abs_mul, abs_mul, abs_of_nonneg hc3,
      abs_of_nonneg (by norm_num : (0:ℝ) ≤ 1/60)]
    have h1 : |Real.cos 1.5| ≤ 1 := Real.abs_cos_le_one 1.5
    nlinarith
  have hyb : |(c + 10/3) * Real.sin 1.5 * (1/60)| ≤ 4 := by
    rw [abs_mul, abs_mul, abs_of_nonneg hc3,
      abs_of_nonneg (by norm_num : (0:ℝ) ≤ 1/60)]
    have h1 : |Real.sin 1.5| ≤ 1 := Real.abs_sin_le_one 1.5
    nlinarith
  have hsx := abs_le.mp hx
  have hsy := abs_le.mp hy
  have hax := abs_le.mp hxb
  have hay := abs_le.mp hyb
  have h20 : clientBorderBuffer = (20:ℝ) := rfl
  have hW : clientWorldWidth - clientBorderBuffer = (1980:ℝ) := by
    norm_num [clientWorldWidth, clientBorderBuffer]
  have hH : clientWorldHeight - clientBorderBuffer = (1980:ℝ) := by
    norm_num [clientWorldHeight, clientBorderBuffer]
  have hXlo : ¬ (s.x + (c + 10/3) * Real.cos 1.5 * (1/60) < clientBorderBuffer) := by
    rw [h20]
    push_neg
    linarith [hsx.1, hax.1]
  have hXhi : ¬ (s.x + (c + 10/3) * Real.cos 1.5 * (1/60) >
      clientWorldWidth - clientBorderBuffer) := by
    rw [hW]
    push_neg
    linarith [hsx.2, hax.2]
  have hYlo : ¬ (s.y + (c + 10/3) * Real.sin 1.5 * (1/60) < clientBorderBuffer) := by
    rw [h20]
    push_neg
    linarith [hsy.1, hay.1]
  have hYhi : ¬ (s.y + (c + 10/3) * Real.sin 1.5 * (1/60) >
      clientWorldHeight - clientBorderBuffer) := by
    rw [hH]
    push_neg
    linarith [hsy.2, hay.2]
  refine ⟨hrot1, ?_, ?_, ?_, ?_⟩
  · show (clampAxis clientBorderBuffer (clientWorldWidth - clientBorderBuffer)
      (s.x + (clampSpeed m (predVelocityRaw ⟨m, 200⟩ thrustInput (1/60) s)).1 * (1/60))
      (clampSpeed m (predVelocityRaw ⟨m, 200⟩ thrustInput (1/60) s)).1).2
      = (c + 10/3) * Real.cos 1.5
    simp only [hclamp]
    unfold clampAxis
    rw [if_neg hXlo, if_neg hXhi]
  · show (clampAxis clientBorderBuffer (clientWorldHeight - clientBorderBuffer)
      (s.y + (clampSpeed m (predVelocityRaw ⟨m, 200⟩ thrustInput (1/60) s)).2 * (1/60))
      (clampSpeed m (predVelocityRaw ⟨m, 200⟩ thrustInput (1/60) s)).2).2
      = (c + 10/3) * Real.sin 1.5
    simp only [hclamp]
    unfold clampAxis
    rw [if_neg hYlo, if_neg hYhi]
  · show (clampAxis clientBorderBuffer (clientWorldWidth - clientBorderBuffer)
      (s.x + (clampSpeed m (predVelocityRaw ⟨m, 200⟩ thrustInput (1/60) s)).1 * (1/60))
      (clampSpeed m (predVelocityRaw ⟨m, 200⟩ thrustInput (1/60) s)).1).1
      = s.x + (c + 10/3) * Real.cos 1.5 * (1/60)
    simp only [hclamp]
    unfold clampAxis
    rw [if_neg hXlo, if_neg hXhi]
  · show (clampAxis clientBorderBuffer (clientWorldHeight - clientBorderBuffer)
      (s.y + (clampSpeed m (predVelocityRaw ⟨m, 200⟩ thrustInput (1/60) s)).2 * (1/60))
      (clampSpeed m (predVelocityRaw ⟨m, 200⟩ thrustInput (1/60) s)).2).1
      = s.y + (c + 10/3) * Real.sin 1.5 * (1/60)
    simp only [hclamp]
    unfold clampAxis
    rw [if_neg hYlo, if_neg hYhi]

/-- Bound on the per-step displacement under thrust. -/
lemma thrust_disp_abs_le (c t : ℝ) (hc : 0 ≤ c) (hc2 : c ≤ 200) (ht : |t| ≤ 1) :
    |c * t * (1/60)| ≤ 4 := by
  rw [abs_mul, abs_mul, abs_of_nonneg hc,
    abs_of_nonneg (by norm_num : (0:ℝ) ≤ 1/60)]
  nlinarith

/-- Invariant of the C7 scenario: after `k ≤ 60` thrust steps the ship still
points at rotation 0, has velocity `(10k/3) * (cos 1.5, sin 1.5)`, and has
drifted at most `4k` units from (1000, 1000) on each axis. -/
lemma thrust_iterate_inv (m : ℝ) (hm : 200 ≤ m) :
    ∀ k : ℕ, k ≤ 60 →
      ((thrustStep m)^[k] c7Start).rotation = 0 ∧
      ((thrustStep m)^[k] c7Start).vx = 10 * k / 3 * Real.cos 1.5 ∧
      ((thrustStep m)^[k] c7Start).vy = 10 * k / 3 * Real.sin 1.5 ∧
      |((thrustStep m)^[k] c7Start).x - 1000| ≤ 4 * k ∧
      |((thrustStep m)^[k] c7Start).y - 1000| ≤ 4 * k := by
  intro k
  induction k with
  | zero =>
    intro _
    refine ⟨rfl, ?_, ?_, ?_, ?_⟩ <;> simp [c7Start]
  | succ n ih =>
    intro hk
    have hk' : n ≤ 60 := Nat.le_of_succ_le hk
    have hn59 : (n:ℝ) ≤ 59 := by
      have : n ≤ 59 := Nat.lt_succ_iff.mp (Nat.lt_of_succ_le hk)
      exact_mod_cast this
    obtain ⟨hrot, hvx, hvy, hx, hy⟩ := ih hk'
    have hc : (0:ℝ) ≤ 10 * n / 3 := by positivity
    have hc2 : 10 * (n:ℝ) / 3 + 10/3 ≤ 200 := by linarith
    have hx236 : |((thrustStep m)^[n] c7Start).x - 1000| ≤ 236 := by
      have h4n : (4:ℝ) * n ≤ 236 := by linarith
      linarith
    have hy236 : |((thrustStep m)^[n] c7Start).y - 1000| ≤ 236 := by
      have h4n : (4:ℝ) * n ≤ 236 := by linarith
      linarith
    obtain ⟨f1, f2, f3, f4, f5⟩ := thrustStep_fields m (10 * n / 3)
      ((thrustStep m)^[n] c7Start) hm hc hc2 hrot hvx hvy hx236 hy236
    rw [Function.iterate_succ_apply']
    refine ⟨f1, ?_, ?_, ?_, ?_⟩
    · rw [f2]
      push_cast
      ring
    · rw [f3]
      push_cast
      ring
    · rw [f4]
      have habs := thrust_disp_abs_le (10 * (n:ℝ) / 3 + 10/3) (Real.cos 1.5)
        (by linarith) (by linarith) (Real.abs_cos_le_one 1.5)
      have h1 : ((thrustStep m)^[n] c7Start).x +
          (10 * (n:ℝ) / 3 + 10/3) * Real.cos 1.5 * (1/60) - 1000
          = (((thrustStep m)^[n] c7Start).x - 1000) +
            (10 * (n:ℝ) / 3 + 10/3) * Real.cos 1.5 * (1/60) := by ring
      rw [h1]
      refine le_trans (abs_add _ _) ?_
      push_cast
      linarith
    · rw [f5]
      have habs := thrust_disp_abs_le (10 * (n:ℝ) / 3 + 10/3) (Real.sin 1.5)
        (by linarith) (by linarith) (Real.abs_sin_le_one 1.5)
      have h1 : ((thrustStep m)^[n] c7Start).y +
          (10 * (n:ℝ) / 3 + 10/3) * Real.sin 1.5 * (1/60) - 1000
          = (((thrustStep m)^[n] c7Start).y - 1000) +
            (10 * (n:ℝ) / 3 + 10/3) * Real.sin 1.5 * (1/60) := by ring
      rw [h1]
      refine le_trans (abs_add _ _) ?_
      push_cast
      linarith

/-- C7: starting at rest with rotation 0, holding thrust for 60 steps of the
client movement stepper at `dt = 1/60` with `ACCEL = 200`,
`FACING_OFFSET = 1.5` and class max speed at least 200, the final velocity is
exactly `200 * (cos 1.5, sin 1.5)` — magnitude exactly 200 units/s in the
facing direction. -/
theorem c7_thrust_one_second (m : ℝ) (hm : 200 ≤ m) :
    ((thrustStep m)^[60] c7Start).vx = 200 * Real.cos 1.5 ∧
    ((thrustStep m)^[60] c7Start).vy = 200 * Real.sin 1.5 ∧
    Real.sqrt (((thrustStep m)^[60] c7Start).vx ^ 2 +
      ((thrustStep m)^[60] c7Start).vy ^ 2) = 200 := by
  obtain ⟨-, hvx, hvy, -, -⟩ := thrust_iterate_inv m hm 60 (le_refl 60)
  have h200 : (10:ℝ) * ((60:ℕ):ℝ) / 3 = 200 := by norm_num
  rw [h200] at hvx hvy
  refine ⟨hvx, hvy, ?_⟩
  rw [hvx, hvy]
  have hS : (200 * Real.cos 1.5) ^ 2 + (200 * Real.sin 1.5) ^ 2 = 200 ^ 2 := by
    have := Real.sin_sq_add_cos_sq 1.5
    nlinarith
  rw [hS, Real.sqrt_sq (by norm_num : (0:ℝ) ≤ 200)]

/-- Witness for C7: the theorem at the hunter max speed 260. -/
theorem c7_thrust_one_second_witness :
    (200:ℝ) ≤ 260 ∧
    (((thrustStep 260)^[60] c7Start).vx = 200 * Real.cos 1.5 ∧
     ((thrustStep 260)^[60] c7Start).vy = 200 * Real.sin 1.5 ∧
     Real.sqrt (((thrustStep 260)^[60] c7Start).vx ^ 2 +
       ((thrustStep 260)^[60] c7Start).vy ^ 2) = 200) :=
  ⟨by norm_num, c7_thrust_one_second 260 (by norm_num)⟩

/-- First normalization loop of `ClientShip._lerpAngle` (line 327):
`while (diff < -Math.PI) diff += Math.PI * 2`. -/
def angUp (d : ℝ) : ℝ :=
  if _h : d < -Real.pi then angUp (d + 2 * Real.pi) else d
termination_by (⌈(-Real.pi - d) / (2 * Real.pi)⌉).toNat
decreasing_by
  have hpi : 0 < Real.pi := Real.pi_pos
  have hx : 0 < (-Real.pi - d) / (2 * Real.pi) := by
    apply div_pos
    · linarith
    · linarith
  have harg : (-Real.pi - (d + 2 * Real.pi)) / (2 * Real.pi)
      = (-Real.pi - d) / (2 * Real.pi) - 1 := by
    field_simp
    ring
  rw [harg]
  have hceil : 0 < ⌈(-Real.pi - d) / (2 * Real.pi)⌉ := Int.ceil_pos.mpr hx
  have hsub : (⌈(-Real.pi - d) / (2 * Real.pi) - 1⌉)
      = ⌈(-Real.pi - d) / (2 * Real.pi)⌉ - 1 := Int.ceil_sub_one _
  rw [hsub]
  omega

/-- Second normalization loop of `ClientShip._lerpAngle` (line 328):
`while (diff > Math.PI) diff -= Math.PI * 2`. -/
def angDown (d : ℝ) : ℝ :=
  if _h : d > Real.pi then angDown (d - 2 * Real.pi) else d
termination_by (⌈(d - Real.pi) / (2 * Real.pi)⌉).toNat
decreasing_by
  have hpi : 0 < Real.pi := Real.pi_pos
  have hx : 0 < (d - Real.pi) / (2 * Real.pi) := by
    apply div_pos
    · linarith
    · linarith
  have harg : (d - 2 * Real.pi - Real.pi) / (2 * Real.pi)
      = (d - Real.pi) / (2 * Real.pi) - 1 := by
    field_simp
    ring
  rw [harg]
  have hceil : 0 < ⌈(d - Real.pi) / (2 * Real.pi)⌉ := Int.ceil_pos.mpr hx
  have hsub : (⌈(d - Real.pi) / (2 * Real.pi) - 1⌉)
      = ⌈(d - Real.pi) / (2 * Real.pi)⌉ - 1 := Int.ceil_sub_one _
  rw [hsub]
  omega

/-- `angUp` fixes arguments that are not below `-π`. -/
lemma angUp_zero : angUp 0 = 0 := by
  rw [angUp, dif_neg]
  push_neg
  linarith [Real.pi_pos]

/-- `angDown` fixes arguments that are not above `π`. -/
lemma angDown_zero : angDown 0 = 0 := by
  rw [angDown, dif_neg]
  push_neg
  linarith [Real.pi_pos]

/-- `ClientShip._lerp` (lines 318-320):
`a + (b - a) * Math.max(0, Math.min(1, t))`. -/
def lerp (a b t : ℝ) : ℝ := a + (b - a) * max 0 (min 1 t)

/-- `ClientShip._lerpAngle` (lines 325-330): normalize the difference into
`[-π, π]` through the two while loops, then blend with the clamped factor. -/
def lerpAngle (a b t : ℝ) : ℝ :=
  a + angDown (angUp (b - a)) * max 0 (min 1 t)

/-- `ClientShip.reconcile` (lines 261-286): squared position error against
`snapThreshold` (default 10000); hard snap to the authoritative state above it,
blend each of position, velocity and (angle-aware) rotation toward the
authoritative value with `blendFactor = 0.1` otherwise.  The authoritative
snapshot is given as a `PredState` with `vx`/`vy` the snapshot's
`velocityX`/`velocityY`. -/
def reconcile (p a : PredState) (snapThreshold : ℝ) : PredState :=
  if (a.x - p.x) * (a.x - p.x) + (a.y - p.y) * (a.y - p.y) > snapThreshold then
    ⟨a.x, a.y, a.rotation, a.vx, a.vy⟩
  else
    ⟨lerp p.x a.x 0.1, lerp p.y a.y 0.1, lerpAngle p.rotation a.rotation 0.1,
     lerp p.vx a.vx 0.1, lerp p.vy a.vy 0.1⟩

/-- C3: above squared error 10000 `reconcile` replaces the predicted state by
the authoritative values exactly; at or below it, it moves every component one
tenth of the way toward the authoritative value (rotation through the
angle-normalized difference).  In particular predicted (0,0) against
authoritative (200,0) snaps to exactly (200,0), and against (10,0) blends to
exactly (1,0). -/
theorem c3_reconcile_snap_and_blend (p a : PredState) :
    ((a.x - p.x) * (a.x - p.x) + (a.y - p.y) * (a.y - p.y) > 10000 →
      reconcile p a 10000 = ⟨a.x, a.y, a.rotation, a.vx, a.vy⟩) ∧
    ((a.x - p.x) * (a.x - p.x) + (a.y - p.y) * (a.y - p.y) ≤ 10000 →
      (reconcile p a 10000).x = p.x + (a.x - p.x) * (1/10) ∧
      (reconcile p a 10000).y = p.y + (a.y - p.y) * (1/10) ∧
      (reconcile p a 10000).rotation
        = p.rotation + angDown (angUp (a.rotation - p.rotation)) * (1/10) ∧
      (reconcile p a 10000).vx = p.vx + (a.vx - p.vx) * (1/10) ∧
      (reconcile p a 10000).vy = p.vy + (a.vy - p.vy) * (1/10)) ∧
    reconcile ⟨0, 0, 0, 0, 0⟩ ⟨200, 0, 0, 0, 0⟩ 10000 = ⟨200, 0, 0, 0, 0⟩ ∧
    (reconcile ⟨0, 0, 0, 0, 0⟩ ⟨10, 0, 0, 0, 0⟩ 10000).x = 1 ∧
    (reconcile ⟨0, 0, 0, 0, 0⟩ ⟨10, 0, 0, 0, 0⟩ 10000).y = 0 := by
  have hclamp : max 0 (min 1 (0.1:ℝ)) = 1/10 := by norm_num
  refine ⟨?_, ?_, ?_, ?_, ?_⟩
  · intro h
    unfold reconcile
    rw [if_pos h]
  · intro h
    unfold reconcile
    rw [if_neg (not_lt.mpr h)]
    refine ⟨?_, ?_, ?_, ?_, ?_⟩ <;>
      simp only [lerp, lerpAngle, hclamp]
  · norm_num [reconcile]
  · norm_num [reconcile, lerp]
  · norm_num [reconcile, lerp]

/-- Witness for C3: the snap implication discharged at the concrete
(0,0)-versus-(200,0) pair, and the blend implication at (0,0)-versus-(10,0). -/
theorem c3_reconcile_snap_and_blend_witness :
    reconcile ⟨0, 0, 0, 0, 0⟩ ⟨200, 0, 0, 0, 0⟩ 10000 = ⟨200, 0, 0, 0, 0⟩ ∧
    (reconcile ⟨0, 0, 0, 0, 0⟩ ⟨10, 0, 0, 0, 0⟩ 10000).x = 0 + (10 - 0) * (1/10) :=
  ⟨(c3_reconcile_snap_and_blend ⟨0, 0, 0, 0, 0⟩ ⟨200, 0, 0, 0, 0⟩).1
      (by norm_num),
   ((c3_reconcile_snap_and_blend ⟨0, 0, 0, 0, 0⟩ ⟨10, 0, 0, 0, 0⟩).2.1
      (by norm_num)).1⟩

/-- C9: when the authoritative snapshot equals the predicted state exactly,
`reconcile` leaves the predicted state unchanged, whatever the threshold. -/
theorem c9_reconcile_idempotent (p : PredState) (snapThreshold : ℝ) :
    reconcile p p snapThreshold = p := by
  have hl : ∀ a t : ℝ, lerp a a t = a := by
    intro a t
    unfold lerp
    ring
  have hla : ∀ a t : ℝ, lerpAngle a a t = a := by
    intro a t
    unfold lerpAngle
    rw [sub_self, angUp_zero, angDown_zero]
    ring
  unfold reconcile
  split
  · rfl
  · rw [hl, hl, hl, hl, hla]

end
